import Mathlib

/-!
Shallow embedding of the tomopy Data-Exchange reader
(`tomopy/dataio/reader.py`): the `Dataset` constructor, the file/layout
validator `_check_input_file`, and the `read` pipeline (slice-window
resolution, field materialization/synthesis, float32 normalization).

Numeric array elements are modelled as exact rationals; dtypes are tracked
symbolically.  The HDF5 container is modelled as a record of optional nodes.
-/

namespace TomoPy

/-- Numeric storage type of an array (the numpy dtypes this code touches). -/
inductive Dtype
  | float32
  | float64
  | int64
  | objectT
deriving DecidableEq, Repr

/-- Python exceptions that the reader code paths can raise. -/
inductive PyError
  | keyError
  | valueError
  | ioError
deriving DecidableEq, Repr

/-- A multi-dimensional numeric array: shape, row-major flattened element
list (exact rationals), and dtype. -/
structure Arr where
  shape : List Nat
  elems : List ℚ
  dtype : Dtype
deriving DecidableEq, Repr

/-- Model of `np.array(None)`: a 0-d object array. -/
def emptyArr : Arr := ⟨[], [], .objectT⟩

/-- Model of `a.size`: the number of elements, the product of the shape. -/
def Arr.size (a : Arr) : Nat := a.shape.prod

/-- Row-major element access for a 3-D array. -/
def Arr.get3 (a : Arr) (i j k : Nat) : ℚ :=
  a.elems.getD (i * a.shape.getD 1 0 * a.shape.getD 2 0 + j * a.shape.getD 2 0 + k) 0

/-- Model of `np.mean` over all elements.  (Defined only on non-empty arrays in the
claims; on empty input numpy yields NaN, here the junk value 0.) -/
def Arr.mean (a : Arr) : ℚ := a.elems.sum / a.elems.length

/-- Model of `a.astype(t)`: dtype coercion.  Element values are kept exact (rounding
to machine precision is outside this model). -/
def Arr.astype (a : Arr) (t : Dtype) : Arr := { a with dtype := t }

/-- Model of `np.linspace(s, e, num)` with the default `endpoint=True`. -/
def npLinspace (s e : ℚ) (num : Nat) : List ℚ :=
  (List.range num).map
    (fun (i : Nat) => if num ≤ 1 then s else s + (i : ℚ) * (e - s) / ((num : ℚ) - 1))

/-- Index set selected by the Python slice `s:e:st` on an axis of length `d`
(non-negative bounds, step ≥ 1, as used by the reader). -/
def sliceIdx (s e st d : Nat) : List Nat :=
  (List.range d).filter (fun i => decide (s ≤ i) && decide (i < e) && decide ((i - s) % st = 0))

/-- 3-D strided slicing `a[ps:pe:pst, ss:se:sst, xs:xe:xst]`. -/
def slice3 (a : Arr) (ps pe pst ss se sst xs xe xst : Nat) : Arr :=
  let is := sliceIdx ps pe pst (a.shape.getD 0 0)
  let js := sliceIdx ss se sst (a.shape.getD 1 0)
  let ks := sliceIdx xs xe xst (a.shape.getD 2 0)
  { shape := [is.length, js.length, ks.length],
    elems := is.flatMap (fun i => js.flatMap (fun j => ks.map (fun k => a.get3 i j k))),
    dtype := a.dtype }

/-- 1-D strided slicing `a[s:e:st]` (the reader applies it to a 1-D theta
node). -/
def slice1 (a : Arr) (s e st : Nat) : Arr :=
  let is := sliceIdx s e st (a.shape.headD 0)
  { shape := [is.length],
    elems := is.map (fun i => a.elems.getD i 0),
    dtype := a.dtype }

/-- Content of the HDF5 container: the top-level `exchange` group and its
four optional nodes. -/
structure H5File where
  hasExchange : Bool
  dataN : Option Arr
  whiteN : Option Arr
  darkN : Option Arr
  thetaN : Option Arr
deriving DecidableEq, Repr

/-- Membership test `"exchange/data" in f`. -/
def H5File.memData (f : H5File) : Bool := f.hasExchange && f.dataN.isSome

/-- Membership test `"exchange/data_white" in f`. -/
def H5File.memWhite (f : H5File) : Bool := f.hasExchange && f.whiteN.isSome

/-- Membership test `"exchange/data_dark" in f`. -/
def H5File.memDark (f : H5File) : Bool := f.hasExchange && f.darkN.isSome

/-- Membership test `"exchange/theta" in f`. -/
def H5File.memTheta (f : H5File) : Bool := f.hasExchange && f.thetaN.isSome

/-- Node access `f["/exchange/data"]`: raises `KeyError` when the path is absent. -/
def H5File.getData (f : H5File) : Except PyError Arr :=
  if f.memData then .ok (f.dataN.getD emptyArr) else .error .keyError

/-- The on-disk input file as seen through `os.path` / `os.access` plus its
HDF5 content. -/
structure InputFile where
  isfile : Bool
  readable : Bool
  writable : Bool
  fext : String
  h5 : H5File
deriving DecidableEq, Repr

/-- Model of `h5py.File(name, "r")`: succeeds iff the file exists and is readable. -/
def h5open (file : InputFile) : Except PyError H5File :=
  if file.isfile && file.readable then .ok file.h5 else .error .ioError

/-- The six validity flags of a `Dataset` (`FLAG_DATA`, `FLAG_WHITE`,
`FLAG_DARK`, `FLAG_THETA`, `FLAG_FILE_CHECK`, `FLAG_DATA_RECON`). -/
structure Flags where
  data : Bool
  white : Bool
  dark : Bool
  theta : Bool
  file_check : Bool
  data_recon : Bool
deriving DecidableEq, Repr

/-- All flags false, the constructor initialization. -/
def emptyFlags : Flags := ⟨false, false, false, false, false, false⟩

/-- The pre-open portion of `_check_input_file`: existence check, read/write
permission check, extension check (reader.py lines 352-378).  Note the
extension branch re-sets `FLAG_DATA` to true for any existing file with a
recognized extension, overwriting a permission failure. -/
def preFlags (file : InputFile) (fl0 : Flags) : Flags :=
  let fl1 := { fl0 with data := file.isfile }
  let fl2 := { fl1 with data := file.readable && file.writable }
  if file.fext == ".hdf" || file.fext == ".h5" then
    (if file.isfile then { fl2 with data := true } else fl2)
  else
    { fl2 with data := false }

/-- The in-container portion of `_check_input_file` (reader.py lines
381-469): group/node presence, dimensionality, and cross-field consistency
checks.  Returns the updated flags and the exception, if one escapes: the
dimensionality check reads `f["/exchange/data"]` unguarded, which raises
`KeyError` when that path is absent; inside the consistency block only
`IndexError` (from `shape[0]` on a 0-d data node) is caught.  The guarded
node accesses use `Option.getD`: each is reachable only when the
corresponding flag is true, which guarantees the node is present. -/
def inFileChecks (f : H5File) (fl0 : Flags) : Flags × Option PyError :=
  let fl := { fl0 with data := f.hasExchange }
  let fl := { fl with data := f.memData }
  let fl := { fl with white := f.memWhite }
  let fl := { fl with dark := f.memDark }
  let fl := { fl with theta := f.memTheta }
  match f.getData with
  | .error e => (fl, some e)
  | .ok d =>
    let fl := { fl with data := d.shape.length == 3 }
    let fl := if fl.white then
        { fl with white := (f.whiteN.getD emptyArr).shape.length == 3 } else fl
    let fl := if fl.dark then
        { fl with dark := (f.darkN.getD emptyArr).shape.length == 3 } else fl
    let fl := if fl.theta then
        { fl with theta := ((f.thetaN.getD emptyArr).shape.length == 1
                            || (f.thetaN.getD emptyArr).shape.length == 0) } else fl
    let fl := if fl.white then
        { fl with white := ((f.whiteN.getD emptyArr).shape.drop 1).take 1
                            == (d.shape.drop 1).take 1 } else fl
    let fl := if fl.dark then
        { fl with dark := ((f.darkN.getD emptyArr).shape.drop 1).take 1
                           == (d.shape.drop 1).take 1 } else fl
    let fl := if fl.theta then
        match d.shape with
        | [] => fl
        | n0 :: _ => { fl with theta := (f.thetaN.getD emptyArr).size == n0 }
      else fl
    (fl, none)

/-- Result of `_check_input_file`: the mutated flags, whether a container
open was attempted, whether a handle was actually created (it is never
closed by the validator), and the escaping exception if any. -/
structure CheckResult where
  flags : Flags
  openTried : Bool
  opened : Bool
  err : Option PyError
deriving DecidableEq, Repr

/-- The validator `Dataset._check_input_file` (reader.py lines 327-476).  The final
`FLAG_FILE_CHECK = True` assignment sits inside the `if FLAG_DATA:` block
that guards the container open, so it reports only the pre-open verdict. -/
def checkInputFile (file : InputFile) (fl0 : Flags) : CheckResult :=
  let fl := preFlags file fl0
  if fl.data then
    match h5open file with
    | .error e => ⟨fl, true, false, some e⟩
    | .ok f =>
      match inFileChecks f fl with
      | (fl2, some e) => ⟨fl2, true, true, some e⟩
      | (fl2, none) => ⟨{ fl2 with file_check := true }, true, true, none⟩
  else
    ⟨{ fl with file_check := false }, false, false, none⟩

/-- The optional slicing arguments of `Dataset.read` (non-negative in this
model, as exercised by the spec's scenarios). -/
structure ReadArgs where
  projections_start : Option Nat
  projections_end : Option Nat
  projections_step : Option Nat
  slices_start : Option Nat
  slices_end : Option Nat
  slices_step : Option Nat
  pixels_start : Option Nat
  pixels_end : Option Nat
  pixels_step : Option Nat
  white_start : Option Nat
  white_end : Option Nat
  dark_start : Option Nat
  dark_end : Option Nat
deriving DecidableEq, Repr

/-- A `read` call with every optional slicing parameter omitted. -/
def defaultArgs : ReadArgs :=
  ⟨none, none, none, none, none, none, none, none, none, none, none, none, none⟩

/-- The mutable state of a `Dataset` object that `read` touches: validity
flags, the four arrays, and the thirteen slicing attributes. -/
structure Dataset where
  flags : Flags
  data : Arr
  data_white : Arr
  data_dark : Arr
  theta : Arr
  projections_start : Option Nat
  projections_end : Option Nat
  projections_step : Option Nat
  slices_start : Option Nat
  slices_end : Option Nat
  slices_step : Option Nat
  pixels_start : Option Nat
  pixels_end : Option Nat
  pixels_step : Option Nat
  white_start : Option Nat
  white_end : Option Nat
  dark_start : Option Nat
  dark_end : Option Nat
deriving DecidableEq, Repr

/-- A freshly constructed `Dataset()` with no arguments: all flags false,
all arrays `np.array(None)`. -/
def emptyDS : Dataset :=
  ⟨emptyFlags, emptyArr, emptyArr, emptyArr, emptyArr,
   none, none, none, none, none, none, none, none, none, none, none, none, none⟩

/-- Result of a `read` call: the mutated dataset, the escaping exception if
any, and the number of container handles opened and closed during the call. -/
structure ReadResult where
  ds : Dataset
  err : Option PyError
  opens : Nat
  closes : Nat
deriving DecidableEq, Repr

/-- The auto-normalization fallback for an absent/invalid white or dark
field: `np.zeros((1, data.shape[1], data.shape[2])) + np.mean(data[:])`
(reader.py lines 221-222 and 247-248). -/
def synthFlat (d : Arr) : Arr :=
  { shape := [1, d.shape.getD 1 0, d.shape.getD 2 0],
    elems := List.replicate (d.shape.getD 1 0 * d.shape.getD 2 0) d.mean,
    dtype := .float64 }

/-- The synthesized angle sequence for an absent/invalid theta node:
`np.linspace(0, n, n) * 180 / (n + 1)` with `n = data.shape[0]`
(reader.py lines 260-261). -/
def synthTheta (n : Nat) : Arr :=
  { shape := [n],
    elems := (npLinspace 0 (n : ℚ) n).map (fun q => q * 180 / ((n : ℚ) + 1)),
    dtype := .float64 }

/-- Model of `isinstance(x, np.float32)` for an ndarray `x`: an ndarray is never an
instance of the numpy scalar type `np.float32`, so this is always false and
the `astype` coercions in `read` always run. -/
def isinstF32 (_ : Arr) : Bool := false

/-- The data-bearing branch of `read` (reader.py lines 165-276), entered
after a successful container open: slice-window resolution, field
materialization/synthesis, the container close, and float32 normalization.
`ds` carries the flags produced by `_check_input_file` and the slicing
attributes copied from the call arguments.  The `opens`/`closes` counts
cover only this branch's handle.  The guarded `Option.getD` node accesses
are each reachable only when the corresponding flag is true, which
guarantees the node is present. -/
def readBranch (ds : Dataset) (f : H5File) (a : ReadArgs) : ReadResult :=
  match f.getData with
  | .error e => ⟨ds, some e, 1, 0⟩
  | .ok dnode =>
    match dnode.shape with
    | [num_x, num_y, num_z] =>
      let ps := a.projections_start.getD 0
      let pe := a.projections_end.getD num_x
      let pst := a.projections_step.getD 1
      let ss := a.slices_start.getD 0
      let se := a.slices_end.getD num_y
      let sst := a.slices_step.getD 1
      let xs := a.pixels_start.getD 0
      let xe := a.pixels_end.getD num_z
      let xst := a.pixels_step.getD 1
      let ds := { ds with
        projections_start := some ps, projections_end := some pe,
        projections_step := some pst,
        slices_start := some ss, slices_end := some se, slices_step := some sst,
        pixels_start := some xs, pixels_end := some xe, pixels_step := some xst }
      let ds := { ds with data := slice3 dnode ps pe pst ss se sst xs xe xst }
      let ds :=
        if ds.flags.white then
          let wnode := f.whiteN.getD emptyArr
          let ws := a.white_start.getD 0
          let we := a.white_end.getD (wnode.shape.headD 0)
          { ds with white_start := some ws, white_end := some we,
                    data_white := slice3 wnode ws we 1 ss se sst xs xe xst }
        else
          { ds with data_white := synthFlat ds.data,
                    flags := { ds.flags with white := true } }
      let ds :=
        if ds.flags.dark then
          let dknode := f.darkN.getD emptyArr
          let dks := a.dark_start.getD 0
          let dke := a.dark_end.getD (dknode.shape.headD 0)
          { ds with dark_start := some dks, dark_end := some dke,
                    data_dark := slice3 dknode dks dke 1 ss se sst xs xe xst }
        else
          { ds with data_dark := synthFlat ds.data,
                    flags := { ds.flags with dark := true } }
      let ds :=
        if ds.flags.theta then
          { ds with theta := slice1 (f.thetaN.getD emptyArr) ps pe pst }
        else
          { ds with theta := synthTheta (ds.data.shape.headD 0),
                    flags := { ds.flags with theta := true } }
      let ds := { ds with
        data := if isinstF32 ds.data then ds.data else ds.data.astype .float32,
        data_white := if isinstF32 ds.data_white then ds.data_white
                      else ds.data_white.astype .float32,
        data_dark := if isinstF32 ds.data_dark then ds.data_dark
                     else ds.data_dark.astype .float32,
        theta := if isinstF32 ds.theta then ds.theta
                 else ds.theta.astype .float32 }
      ⟨ds, none, 1, 1⟩
    | _ => ⟨ds, some .valueError, 1, 0⟩

/-- The method `Dataset.read` (reader.py lines 85-276): store the slicing arguments,
run `_check_input_file` (whose exception, if any, propagates with the flag
mutations already applied), and, only when `FLAG_DATA` survived, open the
container and run the data-bearing branch. -/
def Dataset.read (ds0 : Dataset) (file : InputFile) (a : ReadArgs) : ReadResult :=
  let ds1 := { ds0 with
    projections_start := a.projections_start,
    projections_end := a.projections_end,
    projections_step := a.projections_step,
    slices_start := a.slices_start, slices_end := a.slices_end,
    slices_step := a.slices_step,
    pixels_start := a.pixels_start, pixels_end := a.pixels_end,
    pixels_step := a.pixels_step,
    white_start := a.white_start, white_end := a.white_end,
    dark_start := a.dark_start, dark_end := a.dark_end }
  let chk := checkInputFile file ds1.flags
  let ds := { ds1 with flags := chk.flags }
  let op0 : Nat := if chk.opened then 1 else 0
  match chk.err with
  | some e => ⟨ds, some e, op0, 0⟩
  | none =>
    if ds.flags.data then
      match h5open file with
      | .error e => ⟨ds, some e, op0, 0⟩
      | .ok f =>
        let r := readBranch ds f a
        ⟨r.ds, r.err, op0 + r.opens, r.closes⟩
    else
      ⟨ds, none, op0, 0⟩

/-- The dataset state after `read` has stored its slicing arguments and run
`_check_input_file`: the state handed to the data-bearing branch. -/
def afterCheck (ds0 : Dataset) (file : InputFile) (a : ReadArgs) : Dataset :=
  { ds0 with
    projections_start := a.projections_start,
    projections_end := a.projections_end,
    projections_step := a.projections_step,
    slices_start := a.slices_start, slices_end := a.slices_end,
    slices_step := a.slices_step,
    pixels_start := a.pixels_start, pixels_end := a.pixels_end,
    pixels_step := a.pixels_step,
    white_start := a.white_start, white_end := a.white_end,
    dark_start := a.dark_start, dark_end := a.dark_end,
    flags := (checkInputFile file ds0.flags).flags }

/-- An in-memory constructor argument: `None`, a scalar, or a sequence that
`np.array` turns into an array with the given elements. -/
inductive PyArg
  | noneV
  | scalar (q : ℚ)
  | arr (qs : List ℚ)
deriving DecidableEq, Repr

/-- Whether the argument was actually supplied (not `None`). -/
def PyArg.supplied : PyArg → Bool
  | .noneV => false
  | _ => true

/-- Whether the argument is `None`, a scalar, or a single-element array:
the arguments for which the `if arg != None:` truthiness test is
well-defined and matches suppliedness. -/
def PyArg.isSingle : PyArg → Bool
  | .arr qs => qs.length == 1
  | _ => true

/-- Truthiness of `np.array(x) != None` under elementwise numpy comparison
semantics: a 0-d array of `None` compares elementwise false; a number
compares true; a multi-element boolean array has no truth value, so the
`if` raises `ValueError`; an empty array is falsy. -/
def truthyNeNone : PyArg → Except PyError Bool
  | .noneV => .ok false
  | .scalar _ => .ok true
  | .arr qs =>
    if qs.length == 1 then .ok true
    else if qs.length == 0 then .ok false
    else .error .valueError

/-- The flag-setting part of the `Dataset` constructor (reader.py lines
44-67): all flags start false, then each of the four `if arg != None:`
tests runs in order (`np.squeeze` on theta preserves the element count, so
it does not affect truthiness). -/
def initFlags (data data_white data_dark theta : PyArg) : Except PyError Flags := do
  let fd ← truthyNeNone data
  let fw ← truthyNeNone data_white
  let fdk ← truthyNeNone data_dark
  let ft ← truthyNeNone theta
  .ok { data := fd, white := fw, dark := fdk, theta := ft,
        file_check := false, data_recon := false }

/-- The pre-open `FLAG_DATA` verdict of `_check_input_file`, in closed form:
recognized extension, and (existing file or read+write access). -/
def preOpenDataOK (file : InputFile) : Bool :=
  (file.fext == ".hdf" || file.fext == ".h5")
    && (file.isfile || (file.readable && file.writable))

/-! ### Concrete sample inputs used by witnesses and counterexamples -/

/-- A 3-projection, 1x1 primary data node. -/
def dataNode3 : Arr := ⟨[3, 1, 1], [1, 2, 3], .int64⟩

/-- A valid readable+writable `.h5` file holding only the primary data. -/
def fileNoAux : InputFile :=
  ⟨true, true, true, ".h5", ⟨true, some dataNode3, none, none, none⟩⟩

/-- The same file content, but the process lacks write permission. -/
def roFile : InputFile :=
  ⟨true, true, false, ".h5", ⟨true, some dataNode3, none, none, none⟩⟩

/-- A readable+writable `.h5` file whose root has no `exchange` group. -/
def fileNoExchange : InputFile :=
  ⟨true, true, true, ".h5", ⟨false, none, none, none, none⟩⟩

/-- A readable+writable `.h5` file whose `exchange/data` node is 2-D. -/
def fileData2D : InputFile :=
  ⟨true, true, true, ".h5",
   ⟨true, some ⟨[4, 5], List.replicate 20 1, .int64⟩, none, none, none⟩⟩

/-- A (2,2,2) primary data node. -/
def dataNodeG : Arr := ⟨[2, 2, 2], [1, 2, 3, 4, 5, 6, 7, 8], .int64⟩

/-- A (1,2,2) white-field node consistent with `dataNodeG`. -/
def whiteNodeG : Arr := ⟨[1, 2, 2], [10, 11, 12, 13], .int64⟩

/-- A (1,2,2) dark-field node consistent with `dataNodeG`. -/
def darkNodeG : Arr := ⟨[1, 2, 2], [20, 21, 22, 23], .int64⟩

/-- A length-2 theta node consistent with `dataNodeG`. -/
def thetaNodeG : Arr := ⟨[2], [0, 90], .float64⟩

/-- A fully populated consistent file: data (2,2,2), white and dark (1,2,2),
theta of length 2. -/
def fileGood : InputFile :=
  ⟨true, true, true, ".h5",
   ⟨true, some dataNodeG, some whiteNodeG, some darkNodeG, some thetaNodeG⟩⟩

/-- A file whose `data_white` agrees with `data` (2,2,3) on the slices axis
but not on the pixels axis: trailing two axes (2,2) versus (2,3). -/
def fileC5 : InputFile :=
  ⟨true, true, true, ".h5",
   ⟨true, some ⟨[2, 2, 3], [1, 2, 3, 4, 5, 6, 7, 8, 9, 10, 11, 12], .int64⟩,
    some ⟨[1, 2, 2], [10, 11, 12, 13], .int64⟩,
    none, none⟩⟩

/-! ### Helper lemmas -/

theorem headD_eq_getD (l : List Nat) (d : Nat) : l.headD d = l.getD 0 d := by
  cases l <;> rfl

theorem filter_range_lt (e d : Nat) :
    (List.range d).filter (fun i => decide (i < e)) = List.range (min e d) := by
  induction d with
  | zero => simp
  | succ n ih =>
    rw [List.range_succ, List.filter_append, ih]
    by_cases h : n < e
    · have h1 : min e (n + 1) = n + 1 := by omega
      have h2 : min e n = n := by omega
      simp [h, h1, h2, List.range_succ]
    · have h1 : min e (n + 1) = min e n := by omega
      simp [h, h1]

theorem sliceIdx_full (e d : Nat) : sliceIdx 0 e 1 d = List.range (min e d) := by
  unfold sliceIdx
  rw [← filter_range_lt]
  congr 1
  funext i
  simp [Nat.mod_one]

theorem length_sliceIdx_full (e d : Nat) : (sliceIdx 0 e 1 d).length = min e d := by
  rw [sliceIdx_full, List.length_range]

theorem synthTheta_getD (n i : Nat) (h : i < n) :
    (synthTheta n).elems.getD i 0
      = (if n ≤ 1 then 0 else (i : ℚ) * n / ((n : ℚ) - 1)) * 180 / ((n : ℚ) + 1) := by
  unfold synthTheta npLinspace
  rw [List.map_map, List.getD_eq_getElem?_getD, List.getElem?_map,
      List.getElem?_range h]
  by_cases hc : n ≤ 1
  · simp [hc]
  · simp [hc]

/-- When `_check_input_file` finishes without an exception and leaves
`FLAG_DATA` true, the container handle was actually created. -/
theorem check_opened (file : InputFile) (fl0 : Flags)
    (hE : (checkInputFile file fl0).err = none)
    (hD : (checkInputFile file fl0).flags.data = true) :
    (checkInputFile file fl0).opened = true := by
  unfold checkInputFile at hE hD ⊢
  cases hpre : (preFlags file fl0).data with
  | false => simp [hpre] at hD
  | true =>
    simp only [hpre, if_true] at hE ⊢
    cases hop : h5open file with
    | error e => simp [hop] at hE
    | ok f =>
      simp only [hop] at hE ⊢
      rcases hifc : inFileChecks f (preFlags file fl0) with ⟨fl2, e?⟩
      cases e? <;> simp [hifc] at hE ⊢

/-- Characterization of a `read` call that ends without an exception and
with `FLAG_DATA` true: the check succeeded, the data node exists and is
3-D, and the call reduces to the data-bearing branch with one extra
(unclosed) validation handle. -/
theorem read_ok_unfold (ds0 : Dataset) (file : InputFile) (a : ReadArgs)
    (hE : (ds0.read file a).err = none)
    (hD : (ds0.read file a).ds.flags.data = true) :
    ∃ d nx ny nz,
      file.h5.getData = Except.ok d ∧
      d.shape = [nx, ny, nz] ∧
      (checkInputFile file ds0.flags).err = none ∧
      (checkInputFile file ds0.flags).flags.data = true ∧
      (ds0.read file a).ds = (readBranch (afterCheck ds0 file a) file.h5 a).ds ∧
      (ds0.read file a).err = (readBranch (afterCheck ds0 file a) file.h5 a).err ∧
      (ds0.read file a).opens
        = 1 + (readBranch (afterCheck ds0 file a) file.h5 a).opens ∧
      (ds0.read file a).closes
        = (readBranch (afterCheck ds0 file a) file.h5 a).closes := by
  simp only [Dataset.read] at hE hD ⊢
  cases hcerr : (checkInputFile file ds0.flags).err with
  | some e => simp [hcerr] at hE
  | none =>
    simp only [hcerr] at hE hD ⊢
    cases hfd : (checkInputFile file ds0.flags).flags.data with
    | false => simp [hfd] at hD
    | true =>
      simp only [hfd, if_true] at hE hD ⊢
      cases hop : h5open file with
      | error e => simp [hop] at hE
      | ok f =>
        have hf : f = file.h5 := by
          unfold h5open at hop
          by_cases hfr : file.isfile && file.readable
          · simp [hfr] at hop
            exact hop.symm
          · simp [hfr] at hop
        subst hf
        simp only [hop] at hE ⊢
        have hopd : (checkInputFile file ds0.flags).opened = true :=
          check_opened file ds0.flags hcerr hfd
        cases hgd : (file.h5).getData with
        | error e => simp [readBranch, hgd] at hE
        | ok d =>
          rcases hsh : d.shape with _ | ⟨nx, _ | ⟨ny, _ | ⟨nz, _ | ⟨w, rest⟩⟩⟩⟩
          · simp [readBranch, hgd, hsh] at hE
          · simp [readBranch, hgd, hsh] at hE
          · simp [readBranch, hgd, hsh] at hE
          · refine ⟨d, nx, ny, nz, ?_, hsh, ?_, ?_, ?_, ?_, ?_, ?_⟩
            · simp
            · simp
            · simp
            · simp [afterCheck]
            · simp [afterCheck]
            · simp [afterCheck, hopd]
            · simp [afterCheck]
          · simp [readBranch, hgd, hsh] at hE

/-- The synthesis `synthFlat` depends only on shape and element values, which `astype`
preserves. -/
theorem synthFlat_astype (a : Arr) (t : Dtype) : synthFlat (a.astype t) = synthFlat a := rfl

/-- On the normal path the data-bearing branch reports no exception, one
open and one close, materializes the primary data as the resolved slice of
the on-disk node coerced to float32, and stores the nine fully resolved
slicing attributes. -/
theorem readBranch_basic (ds : Dataset) (f : H5File) (a : ReadArgs)
    (d : Arr) (nx ny nz : Nat)
    (hgd : f.getData = Except.ok d) (hsh : d.shape = [nx, ny, nz]) :
    (readBranch ds f a).err = none ∧
    (readBranch ds f a).opens = 1 ∧
    (readBranch ds f a).closes = 1 ∧
    (readBranch ds f a).ds.data
      = (slice3 d (a.projections_start.getD 0) (a.projections_end.getD nx)
          (a.projections_step.getD 1) (a.slices_start.getD 0)
          (a.slices_end.getD ny) (a.slices_step.getD 1) (a.pixels_start.getD 0)
          (a.pixels_end.getD nz) (a.pixels_step.getD 1)).astype .float32 ∧
    (readBranch ds f a).ds.projections_start = some (a.projections_start.getD 0) ∧
    (readBranch ds f a).ds.projections_end = some (a.projections_end.getD nx) ∧
    (readBranch ds f a).ds.projections_step = some (a.projections_step.getD 1) ∧
    (readBranch ds f a).ds.slices_start = some (a.slices_start.getD 0) ∧
    (readBranch ds f a).ds.slices_end = some (a.slices_end.getD ny) ∧
    (readBranch ds f a).ds.slices_step = some (a.slices_step.getD 1) ∧
    (readBranch ds f a).ds.pixels_start = some (a.pixels_start.getD 0) ∧
    (readBranch ds f a).ds.pixels_end = some (a.pixels_end.getD nz) ∧
    (readBranch ds f a).ds.pixels_step = some (a.pixels_step.getD 1) := by
  simp [readBranch, hgd, hsh, isinstF32,
    apply_ite Dataset.data, apply_ite Dataset.projections_start,
    apply_ite Dataset.projections_end, apply_ite Dataset.projections_step,
    apply_ite Dataset.slices_start, apply_ite Dataset.slices_end,
    apply_ite Dataset.slices_step, apply_ite Dataset.pixels_start,
    apply_ite Dataset.pixels_end, apply_ite Dataset.pixels_step]

/-- When `FLAG_WHITE` is false entering the branch, the white field is
synthesized from the resolved primary data and the flag is set true. -/
theorem readBranch_white_synth (ds : Dataset) (f : H5File) (a : ReadArgs)
    (d : Arr) (nx ny nz : Nat)
    (hgd : f.getData = Except.ok d) (hsh : d.shape = [nx, ny, nz])
    (hw : ds.flags.white = false) :
    (readBranch ds f a).ds.data_white
      = (synthFlat ((readBranch ds f a).ds.data)).astype .float32 ∧
    (readBranch ds f a).ds.flags.white = true := by
  simp [readBranch, hgd, hsh, isinstF32, hw, synthFlat_astype,
    apply_ite Dataset.data, apply_ite Dataset.data_white,
    apply_ite Dataset.flags, apply_ite Flags.white]

/-- When `FLAG_DARK` is false entering the branch, the dark field is
synthesized from the resolved primary data and the flag is set true. -/
theorem readBranch_dark_synth (ds : Dataset) (f : H5File) (a : ReadArgs)
    (d : Arr) (nx ny nz : Nat)
    (hgd : f.getData = Except.ok d) (hsh : d.shape = [nx, ny, nz])
    (hdk : ds.flags.dark = false) :
    (readBranch ds f a).ds.data_dark
      = (synthFlat ((readBranch ds f a).ds.data)).astype .float32 ∧
    (readBranch ds f a).ds.flags.dark = true := by
  simp [readBranch, hgd, hsh, isinstF32, hdk, synthFlat_astype,
    apply_ite Dataset.data, apply_ite Dataset.data_dark,
    apply_ite Dataset.flags, apply_ite Flags.dark]

/-- When `FLAG_THETA` is false entering the branch, the angle array is
synthesized from the retained projection count and the flag is set true. -/
theorem readBranch_theta_synth (ds : Dataset) (f : H5File) (a : ReadArgs)
    (d : Arr) (nx ny nz : Nat)
    (hgd : f.getData = Except.ok d) (hsh : d.shape = [nx, ny, nz])
    (hth : ds.flags.theta = false) :
    (readBranch ds f a).ds.theta
      = (synthTheta ((readBranch ds f a).ds.data.shape.headD 0)).astype .float32 ∧
    (readBranch ds f a).ds.flags.theta = true := by
  simp [readBranch, hgd, hsh, isinstF32, hth, Arr.astype,
    apply_ite Dataset.data, apply_ite Dataset.theta,
    apply_ite Dataset.flags, apply_ite Flags.theta]

/-- When `FLAG_WHITE` is true entering the branch, the white field is read
from its node, sliced with the shared resolved slices/pixels windows and an
independent shot window. -/
theorem readBranch_white_read (ds : Dataset) (f : H5File) (a : ReadArgs)
    (d : Arr) (nx ny nz : Nat) (w : Arr)
    (hgd : f.getData = Except.ok d) (hsh : d.shape = [nx, ny, nz])
    (hw : ds.flags.white = true) (hwn : f.whiteN = some w) :
    (readBranch ds f a).ds.white_start = some (a.white_start.getD 0) ∧
    (readBranch ds f a).ds.white_end = some (a.white_end.getD (w.shape.headD 0)) ∧
    (readBranch ds f a).ds.data_white
      = (slice3 w (a.white_start.getD 0) (a.white_end.getD (w.shape.headD 0)) 1
          (a.slices_start.getD 0) (a.slices_end.getD ny) (a.slices_step.getD 1)
          (a.pixels_start.getD 0) (a.pixels_end.getD nz)
          (a.pixels_step.getD 1)).astype .float32 := by
  simp [readBranch, hgd, hsh, isinstF32, hw, hwn,
    apply_ite Dataset.data_white, apply_ite Dataset.white_start,
    apply_ite Dataset.white_end]

/-- When `FLAG_DARK` is true entering the branch, the dark field is read
from its node, sliced with the shared resolved slices/pixels windows and an
independent shot window. -/
theorem readBranch_dark_read (ds : Dataset) (f : H5File) (a : ReadArgs)
    (d : Arr) (nx ny nz : Nat) (dk : Arr)
    (hgd : f.getData = Except.ok d) (hsh : d.shape = [nx, ny, nz])
    (hdk : ds.flags.dark = true) (hdn : f.darkN = some dk) :
    (readBranch ds f a).ds.dark_start = some (a.dark_start.getD 0) ∧
    (readBranch ds f a).ds.dark_end = some (a.dark_end.getD (dk.shape.headD 0)) ∧
    (readBranch ds f a).ds.data_dark
      = (slice3 dk (a.dark_start.getD 0) (a.dark_end.getD (dk.shape.headD 0)) 1
          (a.slices_start.getD 0) (a.slices_end.getD ny) (a.slices_step.getD 1)
          (a.pixels_start.getD 0) (a.pixels_end.getD nz)
          (a.pixels_step.getD 1)).astype .float32 := by
  simp [readBranch, hgd, hsh, isinstF32, hdk, hdn,
    apply_ite Dataset.data_dark, apply_ite Dataset.dark_start,
    apply_ite Dataset.dark_end, apply_ite Dataset.flags, apply_ite Flags.dark]

/-- The pre-open `FLAG_DATA` verdict in closed form. -/
theorem preFlags_data_eq (file : InputFile) (fl0 : Flags) :
    (preFlags file fl0).data = preOpenDataOK file := by
  unfold preFlags preOpenDataOK
  by_cases hext : (file.fext == ".hdf" || file.fext == ".h5") = true
  · by_cases hf : file.isfile = true <;> simp [hext, hf]
  · simp [hext]

/-! ### Claims -/

/-- Claim C1 (code bug): the claim says that for an input file the process
cannot both read and write, `read` leaves `validity.data == false` and
`validity.file_check == false` and attempts no container open.  On an
existing readable-but-not-writable `.h5` file the permission check does set
`FLAG_DATA = False`, but the extension check immediately re-sets it to true
(`if os.path.isfile: FLAG_DATA = True`), so the container is opened (twice)
and the read finishes with `FLAG_DATA` and `FLAG_FILE_CHECK` both true —
contradicting the validator docstring, which lists read/write permission as
an error-level check. -/
theorem claim_C1 :
    (roFile.readable && roFile.writable) = false ∧
    (emptyDS.read roFile defaultArgs).ds.flags.data = true ∧
    (emptyDS.read roFile defaultArgs).ds.flags.file_check = true ∧
    (emptyDS.read roFile defaultArgs).opens = 2 := by
  refine ⟨by decide, by decide, by decide, by decide⟩

/-- Claim C2 (code bug): the claim says a file passing the
existence/permission/extension checks but lacking the `exchange` group
makes `read` raise no exception, leave `validity.data == false`, and
populate no field.  The flag and field parts hold, but `read` does raise:
the unguarded dimension check `f["/exchange/data"].shape` raises `KeyError`
when the group is absent — contradicting the validator docstring "The
function only modifies flags." -/
theorem claim_C2 :
    (emptyDS.read fileNoExchange defaultArgs).err = some .keyError ∧
    (emptyDS.read fileNoExchange defaultArgs).ds.flags.data = false ∧
    (emptyDS.read fileNoExchange defaultArgs).ds.data = emptyDS.data ∧
    (emptyDS.read fileNoExchange defaultArgs).ds.data_white = emptyDS.data_white ∧
    (emptyDS.read fileNoExchange defaultArgs).ds.data_dark = emptyDS.data_dark ∧
    (emptyDS.read fileNoExchange defaultArgs).ds.theta = emptyDS.theta := by
  refine ⟨by decide, by decide, by decide, by decide, by decide, by decide⟩

/-- Claim C5 (code bug): the claim says a 3-D `data_white` whose trailing
two axes differ from `data`'s is marked invalid and synthesized.  The
compatibility check compares `shape[1:2]` — the slices axis only — so a
mismatch confined to the pixels axis is not detected: `FLAG_WHITE` stays
true and the mismatched node is read from file, not synthesized.  The
constructor docstring says the 2nd and 3rd dimensions should both match. -/
theorem claim_C5 :
    (fileC5.h5.whiteN.getD emptyArr).shape.drop 1
      ≠ (fileC5.h5.dataN.getD emptyArr).shape.drop 1 ∧
    (checkInputFile fileC5 emptyFlags).flags.white = true ∧
    (emptyDS.read fileC5 defaultArgs).ds.flags.white = true ∧
    (emptyDS.read fileC5 defaultArgs).ds.data_white.elems = [10, 11, 12, 13] := by
  refine ⟨by decide, by decide, by decide, by decide⟩

/-- Claim C3, counterexample: a readable+writable `.h5` file whose
`exchange/data` node is 2-D ends the validator with `validity.data ==
false` yet `validity.file_check == true`, so `file_check` does not track
"data remained true through every check". -/
theorem claim_C3_cex :
    (checkInputFile fileData2D emptyFlags).flags.data = false ∧
    (checkInputFile fileData2D emptyFlags).flags.file_check = true := by
  refine ⟨by decide, by decide⟩

/-- Claim C3, amended: when the validator finishes without an exception,
`validity.file_check` equals the pre-open `FLAG_DATA` verdict (recognized
extension, and existing file or read+write access) — not the final
`validity.data`; in-container failures can leave `file_check` true while
`data` is false. -/
theorem claim_C3 (file : InputFile) (fl0 : Flags)
    (hE : (checkInputFile file fl0).err = none) :
    (checkInputFile file fl0).flags.file_check = preOpenDataOK file := by
  unfold checkInputFile at hE ⊢
  rw [← preFlags_data_eq file fl0]
  cases hpre : (preFlags file fl0).data with
  | false => simp [hpre] at hE ⊢
  | true =>
    simp only [hpre, if_true] at hE ⊢
    cases hop : h5open file with
    | error e => simp [hop] at hE
    | ok f =>
      simp only [hop] at hE ⊢
      rcases hifc : inFileChecks f (preFlags file fl0) with ⟨fl2, e?⟩
      cases e? with
      | some e => simp [hifc] at hE
      | none => simp [hifc]

/-- Claim C3, witness: the amended statement applied to a fully valid
concrete file. -/
theorem claim_C3_witness :
    (checkInputFile fileGood emptyFlags).err = none ∧
    (checkInputFile fileGood emptyFlags).flags.file_check = preOpenDataOK fileGood :=
  ⟨by decide, claim_C3 fileGood emptyFlags (by decide)⟩

/-- Claim C9, counterexample: constructing with a two-element in-memory
data array does not complete — the `if data != None:` truthiness test on a
multi-element array raises `ValueError`. -/
theorem claim_C9_cex :
    initFlags (.arr [1, 2]) .noneV .noneV .noneV = .error .valueError := by
  rfl

/-- Claim C9, amended: for constructor arguments that are `None`, scalars,
or single-element arrays, construction completes without raising and sets
each flag true iff the corresponding argument was supplied (non-`None`);
multi-element array arguments instead raise `ValueError`. -/
theorem claim_C9 (a b c d : PyArg)
    (ha : a.isSingle = true) (hb : b.isSingle = true)
    (hc : c.isSingle = true) (hd : d.isSingle = true) :
    initFlags a b c d
      = .ok ⟨a.supplied, b.supplied, c.supplied, d.supplied, false, false⟩ := by
  have ea : truthyNeNone a = .ok a.supplied := by
    cases a with
    | noneV => rfl
    | scalar q => rfl
    | arr qs =>
      simp only [PyArg.isSingle] at ha
      simp [truthyNeNone, PyArg.supplied, ha]
  have eb : truthyNeNone b = .ok b.supplied := by
    cases b with
    | noneV => rfl
    | scalar q => rfl
    | arr qs =>
      simp only [PyArg.isSingle] at hb
      simp [truthyNeNone, PyArg.supplied, hb]
  have ec : truthyNeNone c = .ok c.supplied := by
    cases c with
    | noneV => rfl
    | scalar q => rfl
    | arr qs =>
      simp only [PyArg.isSingle] at hc
      simp [truthyNeNone, PyArg.supplied, hc]
  have ed : truthyNeNone d = .ok d.supplied := by
    cases d with
    | noneV => rfl
    | scalar q => rfl
    | arr qs =>
      simp only [PyArg.isSingle] at hd
      simp [truthyNeNone, PyArg.supplied, hd]
  simp [initFlags, ea, eb, ec, ed, Bind.bind, Except.bind]

/-- Claim C9, witness: the amended statement applied to a scalar, a `None`,
a single-element array, and a `None`. -/
theorem claim_C9_witness :
    PyArg.isSingle (.scalar 1) = true ∧
    PyArg.isSingle (.arr [5]) = true ∧
    initFlags (.scalar 1) .noneV (.arr [5]) .noneV
      = .ok ⟨true, false, true, false, false, false⟩ :=
  ⟨by decide, by decide, by
    simpa using claim_C9 (.scalar 1) .noneV (.arr [5]) .noneV
      (by decide) (by decide) (by decide) (by decide)⟩

/-- Claim C10, counterexample: a completed read of a valid file opens two
container handles (one in the validator, one in the data branch) but closes
only one — the validator handle is never closed before `read` returns. -/
theorem claim_C10_cex :
    (emptyDS.read fileNoAux defaultArgs).err = none ∧
    (emptyDS.read fileNoAux defaultArgs).opens = 2 ∧
    (emptyDS.read fileNoAux defaultArgs).closes = 1 := by
  refine ⟨by decide, by decide, by decide⟩

/-- Claim C8: after every read that completes without an exception and with
`validity.data == true`, all four retained arrays have float32 dtype,
whether read from file or synthesized. -/
theorem claim_C8 (ds0 : Dataset) (file : InputFile) (a : ReadArgs)
    (hE : (ds0.read file a).err = none)
    (hD : (ds0.read file a).ds.flags.data = true) :
    (ds0.read file a).ds.data.dtype = .float32 ∧
    (ds0.read file a).ds.data_white.dtype = .float32 ∧
    (ds0.read file a).ds.data_dark.dtype = .float32 ∧
    (ds0.read file a).ds.theta.dtype = .float32 := by
  obtain ⟨d, nx, ny, nz, hgd, hsh, -, -, hds, -, -, -⟩ :=
    read_ok_unfold ds0 file a hE hD
  rw [hds]
  simp [readBranch, hgd, hsh, isinstF32, Arr.astype]

/-- Claim C8, witness: a successful read of a fully populated file yields
four float32 arrays. -/
theorem claim_C8_witness :
    (emptyDS.read fileGood defaultArgs).ds.data.dtype = .float32 ∧
    (emptyDS.read fileGood defaultArgs).ds.data_white.dtype = .float32 ∧
    (emptyDS.read fileGood defaultArgs).ds.data_dark.dtype = .float32 ∧
    (emptyDS.read fileGood defaultArgs).ds.theta.dtype = .float32 :=
  claim_C8 emptyDS fileGood defaultArgs (by decide) (by decide)

/-- Claim C10, amended: a read that completes without an exception with
`validity.data == true` opens two container handles (validator and data
branch) and closes exactly one — the data branch's own handle is closed
before `read` returns, but the validator's handle is leaked. -/
theorem claim_C10 (ds0 : Dataset) (file : InputFile) (a : ReadArgs)
    (hE : (ds0.read file a).err = none)
    (hD : (ds0.read file a).ds.flags.data = true) :
    (ds0.read file a).opens = 2 ∧ (ds0.read file a).closes = 1 := by
  obtain ⟨d, nx, ny, nz, hgd, hsh, -, -, -, -, hop, hcl⟩ :=
    read_ok_unfold ds0 file a hE hD
  obtain ⟨-, hbo, hbc, -, -, -, -, -, -, -, -, -, -⟩ :=
    readBranch_basic (afterCheck ds0 file a) file.h5 a d nx ny nz hgd hsh
  exact ⟨by rw [hop, hbo], by rw [hcl, hbc]⟩

/-- Claim C10, witness: the amended statement on a fully populated file. -/
theorem claim_C10_witness :
    (emptyDS.read fileGood defaultArgs).opens = 2 ∧
    (emptyDS.read fileGood defaultArgs).closes = 1 :=
  claim_C10 emptyDS fileGood defaultArgs (by decide) (by decide)

/-- Claim C4, amended: when the theta node is absent or invalid and the
retained primary data has `N ≥ 2` projections, the synthesized angles are
`np.linspace(0, N, N) * 180 / (N + 1)`, i.e.
`angles[i] = (i * N / (N - 1)) * 180 / (N + 1)` — not `i * 180 / (N + 1)`;
for `N = 180` this gives `angles[179] = 32400/181 ≈ 179.0`, not 178.0. -/
theorem claim_C4 (ds0 : Dataset) (file : InputFile) (a : ReadArgs) (i N : Nat)
    (hE : (ds0.read file a).err = none)
    (hD : (ds0.read file a).ds.flags.data = true)
    (hth : (checkInputFile file ds0.flags).flags.theta = false)
    (hN : (ds0.read file a).ds.data.shape.headD 0 = N)
    (h2 : 2 ≤ N) (hi : i < N) :
    (ds0.read file a).ds.theta.shape = [N] ∧
    (ds0.read file a).ds.theta.elems.getD i 0
      = (i : ℚ) * N / ((N : ℚ) - 1) * 180 / ((N : ℚ) + 1) := by
  obtain ⟨d, nx, ny, nz, hgd, hsh, -, -, hds, -, -, -⟩ :=
    read_ok_unfold ds0 file a hE hD
  have hth2 : (afterCheck ds0 file a).flags.theta = false := by
    simp [afterCheck, hth]
  obtain ⟨hteq, -⟩ :=
    readBranch_theta_synth (afterCheck ds0 file a) file.h5 a d nx ny nz hgd hsh hth2
  rw [hds] at hN ⊢
  rw [hteq, hN]
  constructor
  · simp [synthTheta, Arr.astype]
  · have he : ((synthTheta N).astype Dtype.float32).elems = (synthTheta N).elems := rfl
    rw [he, synthTheta_getD N i hi]
    have hn1 : ¬ (N ≤ 1) := by omega
    simp [hn1]

/-- Claim C4, counterexample: on a valid file with 3 retained projections
and no theta node, the synthesized `angles[1]` is `135/2 = 67.5`, while the
claimed formula `i * 180 / (N + 1)` predicts `45`. -/
theorem claim_C4_cex :
    (emptyDS.read fileNoAux defaultArgs).ds.data.shape.headD 0 = 3 ∧
    (emptyDS.read fileNoAux defaultArgs).ds.theta.elems.getD 1 0 = 135 / 2 ∧
    (emptyDS.read fileNoAux defaultArgs).ds.theta.elems.getD 1 0
      ≠ (1 : ℚ) * 180 / (3 + 1) := by
  have hv : (emptyDS.read fileNoAux defaultArgs).ds.theta.elems.getD 1 0 = 135 / 2 := by
    norm_num [Dataset.read, checkInputFile, preFlags, inFileChecks, h5open,
      H5File.getData, H5File.memData, H5File.memWhite, H5File.memDark,
      H5File.memTheta, readBranch, slice3, slice1, sliceIdx, Arr.get3, Arr.mean,
      synthFlat, synthTheta, npLinspace, isinstF32, Arr.astype, List.range_succ,
      emptyDS, fileNoAux, dataNode3, defaultArgs, emptyFlags, emptyArr]
  refine ⟨by decide, hv, ?_⟩
  rw [hv]
  norm_num

/-- Claim C4, witness: the amended statement on a valid 3-projection file
with no theta node; the synthesized `angles[1]` equals
`(1 * 3 / 2) * 180 / 4 = 67.5`. -/
theorem claim_C4_witness :
    (checkInputFile fileNoAux emptyDS.flags).flags.theta = false ∧
    (emptyDS.read fileNoAux defaultArgs).ds.theta.shape = [3] ∧
    (emptyDS.read fileNoAux defaultArgs).ds.theta.elems.getD 1 0 = 135 / 2 := by
  refine ⟨by decide, ?_, ?_⟩
  · exact (claim_C4 emptyDS fileNoAux defaultArgs 1 3 (by decide) (by decide)
      (by decide) (by decide) (by decide) (by decide)).1
  · have h := (claim_C4 emptyDS fileNoAux defaultArgs 1 3 (by decide) (by decide)
      (by decide) (by decide) (by decide) (by decide)).2
    rw [h]
    norm_num

/-- Claim C6: for every read completing with `validity.data == true`, if
the white field entered the branch absent/invalid, the white field becomes
a (1, S, P) array — (S, P) the slice/pixel extents of the resolved primary
window — every element the mean of the resolved primary window, with
`validity.white` set true post-hoc; the dark field follows the identical
policy independently. -/
theorem claim_C6 (ds0 : Dataset) (file : InputFile) (a : ReadArgs)
    (hE : (ds0.read file a).err = none)
    (hD : (ds0.read file a).ds.flags.data = true) :
    ((checkInputFile file ds0.flags).flags.white = false →
      (ds0.read file a).ds.data_white.shape
        = [1, (ds0.read file a).ds.data.shape.getD 1 0,
           (ds0.read file a).ds.data.shape.getD 2 0] ∧
      (∀ q ∈ (ds0.read file a).ds.data_white.elems,
        q = (ds0.read file a).ds.data.mean) ∧
      (ds0.read file a).ds.flags.white = true) ∧
    ((checkInputFile file ds0.flags).flags.dark = false →
      (ds0.read file a).ds.data_dark.shape
        = [1, (ds0.read file a).ds.data.shape.getD 1 0,
           (ds0.read file a).ds.data.shape.getD 2 0] ∧
      (∀ q ∈ (ds0.read file a).ds.data_dark.elems,
        q = (ds0.read file a).ds.data.mean) ∧
      (ds0.read file a).ds.flags.dark = true) := by
  obtain ⟨d, nx, ny, nz, hgd, hsh, -, -, hds, -, -, -⟩ :=
    read_ok_unfold ds0 file a hE hD
  rw [hds]
  constructor
  · intro hw
    have hw2 : (afterCheck ds0 file a).flags.white = false := by
      simp [afterCheck, hw]
    obtain ⟨hweq, hwf⟩ :=
      readBranch_white_synth (afterCheck ds0 file a) file.h5 a d nx ny nz hgd hsh hw2
    rw [hweq]
    refine ⟨by simp [synthFlat, Arr.astype], ?_, hwf⟩
    intro q hq
    simp only [synthFlat, Arr.astype, List.mem_replicate] at hq
    exact hq.2
  · intro hdk
    have hdk2 : (afterCheck ds0 file a).flags.dark = false := by
      simp [afterCheck, hdk]
    obtain ⟨hdeq, hdf⟩ :=
      readBranch_dark_synth (afterCheck ds0 file a) file.h5 a d nx ny nz hgd hsh hdk2
    rw [hdeq]
    refine ⟨by simp [synthFlat, Arr.astype], ?_, hdf⟩
    intro q hq
    simp only [synthFlat, Arr.astype, List.mem_replicate] at hq
    exact hq.2

/-- Claim C6, witness: on a valid data-only file, white and dark are both
synthesized as (1,1,1) arrays of the primary mean with flags set true. -/
theorem claim_C6_witness :
    (emptyDS.read fileNoAux defaultArgs).ds.data_white.shape = [1, 1, 1] ∧
    (emptyDS.read fileNoAux defaultArgs).ds.flags.white = true ∧
    (emptyDS.read fileNoAux defaultArgs).ds.flags.dark = true ∧
    (∀ q ∈ (emptyDS.read fileNoAux defaultArgs).ds.data_white.elems,
      q = (emptyDS.read fileNoAux defaultArgs).ds.data.mean) ∧
    (∀ q ∈ (emptyDS.read fileNoAux defaultArgs).ds.data_dark.elems,
      q = (emptyDS.read fileNoAux defaultArgs).ds.data.mean) := by
  have h := claim_C6 emptyDS fileNoAux defaultArgs (by decide) (by decide)
  have hw := h.1 (by decide)
  have hd := h.2 (by decide)
  refine ⟨?_, hw.2.2, hd.2.2, hw.2.1, hd.2.1⟩
  rw [hw.1]
  decide

/-- Claim C7: a read with every slicing parameter omitted resolves each of
the nine projection/slice/pixel windows to (0, axis length, 1) and retains
the full on-disk extent; white and dark fields are sliced with the same
resolved slice/pixel windows as the primary data (their extents clamp at
the auxiliary node's own axes), only the leading shot axis having an
independent (0, shot count) window. -/
theorem claim_C7 (ds0 : Dataset) (file : InputFile) (d : Arr) (nx ny nz : Nat)
    (hE : (ds0.read file defaultArgs).err = none)
    (hD : (ds0.read file defaultArgs).ds.flags.data = true)
    (hdn : file.h5.dataN = some d)
    (hsh0 : d.shape = [nx, ny, nz]) :
    (ds0.read file defaultArgs).ds.projections_start = some 0 ∧
    (ds0.read file defaultArgs).ds.projections_end = some nx ∧
    (ds0.read file defaultArgs).ds.projections_step = some 1 ∧
    (ds0.read file defaultArgs).ds.slices_start = some 0 ∧
    (ds0.read file defaultArgs).ds.slices_end = some ny ∧
    (ds0.read file defaultArgs).ds.slices_step = some 1 ∧
    (ds0.read file defaultArgs).ds.pixels_start = some 0 ∧
    (ds0.read file defaultArgs).ds.pixels_end = some nz ∧
    (ds0.read file defaultArgs).ds.pixels_step = some 1 ∧
    (ds0.read file defaultArgs).ds.data.shape = [nx, ny, nz] ∧
    ((checkInputFile file ds0.flags).flags.white = true →
      ∀ w, file.h5.whiteN = some w →
        (ds0.read file defaultArgs).ds.white_start = some 0 ∧
        (ds0.read file defaultArgs).ds.white_end = some (w.shape.headD 0) ∧
        (ds0.read file defaultArgs).ds.data_white.shape
          = [w.shape.headD 0, min ny (w.shape.getD 1 0),
             min nz (w.shape.getD 2 0)]) ∧
    ((checkInputFile file ds0.flags).flags.dark = true →
      ∀ dk, file.h5.darkN = some dk →
        (ds0.read file defaultArgs).ds.dark_start = some 0 ∧
        (ds0.read file defaultArgs).ds.dark_end = some (dk.shape.headD 0) ∧
        (ds0.read file defaultArgs).ds.data_dark.shape
          = [dk.shape.headD 0, min ny (dk.shape.getD 1 0),
             min nz (dk.shape.getD 2 0)]) := by
  obtain ⟨d2, nx2, ny2, nz2, hgd, hsh2, -, -, hds, -, -, -⟩ :=
    read_ok_unfold ds0 file defaultArgs hE hD
  have hd2 : d2 = d := by
    unfold H5File.getData at hgd
    by_cases hmem : file.h5.memData = true
    · rw [if_pos hmem] at hgd
      rw [hdn] at hgd
      simpa using hgd.symm
    · rw [if_neg hmem] at hgd
      simp at hgd
  rw [hd2] at hgd hsh2
  rw [hsh0] at hsh2
  obtain ⟨rfl, rfl, rfl⟩ : nx = nx2 ∧ ny = ny2 ∧ nz = nz2 := by
    simpa using hsh2
  obtain ⟨-, -, -, hdata, hp1, hp2, hp3, hs1, hs2, hs3, hx1, hx2, hx3⟩ :=
    readBranch_basic (afterCheck ds0 file defaultArgs) file.h5 defaultArgs
      d nx ny nz hgd hsh0
  rw [hds]
  refine ⟨by simpa [defaultArgs] using hp1, by simpa [defaultArgs] using hp2,
    by simpa [defaultArgs] using hp3, by simpa [defaultArgs] using hs1,
    by simpa [defaultArgs] using hs2, by simpa [defaultArgs] using hs3,
    by simpa [defaultArgs] using hx1, by simpa [defaultArgs] using hx2,
    by simpa [defaultArgs] using hx3, ?_, ?_, ?_⟩
  · rw [hdata]
    simp [slice3, Arr.astype, defaultArgs, hsh0, length_sliceIdx_full,
      Nat.min_self]
  · intro hw w hwn
    have hw2 : (afterCheck ds0 file defaultArgs).flags.white = true := by
      simp [afterCheck, hw]
    obtain ⟨hws, hwe, hwd⟩ :=
      readBranch_white_read (afterCheck ds0 file defaultArgs) file.h5 defaultArgs
        d nx ny nz w hgd hsh0 hw2 hwn
    refine ⟨by simpa [defaultArgs] using hws, by simpa [defaultArgs] using hwe, ?_⟩
    rw [hwd]
    simp [slice3, Arr.astype, defaultArgs, length_sliceIdx_full, headD_eq_getD,
      List.head?_eq_getElem?]
  · intro hdk dk hdnn
    have hdk2 : (afterCheck ds0 file defaultArgs).flags.dark = true := by
      simp [afterCheck, hdk]
    obtain ⟨hds1, hde1, hdd⟩ :=
      readBranch_dark_read (afterCheck ds0 file defaultArgs) file.h5 defaultArgs
        d nx ny nz dk hgd hsh0 hdk2 hdnn
    refine ⟨by simpa [defaultArgs] using hds1, by simpa [defaultArgs] using hde1, ?_⟩
    rw [hdd]
    simp [slice3, Arr.astype, defaultArgs, length_sliceIdx_full, headD_eq_getD,
      List.head?_eq_getElem?]

/-- Claim C7, witness: a defaults-only read of a fully populated (2,2,2)
file resolves all windows to the full extent and slices the auxiliary
fields with the shared windows. -/
theorem claim_C7_witness :
    (emptyDS.read fileGood defaultArgs).ds.projections_end = some 2 ∧
    (emptyDS.read fileGood defaultArgs).ds.slices_end = some 2 ∧
    (emptyDS.read fileGood defaultArgs).ds.pixels_end = some 2 ∧
    (emptyDS.read fileGood defaultArgs).ds.data.shape = [2, 2, 2] ∧
    (emptyDS.read fileGood defaultArgs).ds.white_end = some 1 ∧
    (emptyDS.read fileGood defaultArgs).ds.data_white.shape = [1, 2, 2] := by
  obtain ⟨c1, c2, c3, c4, c5, c6, c7, c8, c9, c10, c11, c12⟩ :=
    claim_C7 emptyDS fileGood dataNodeG 2 2 2 (by decide) (by decide)
      (by decide) (by decide)
  obtain ⟨w1, w2, w3⟩ := c11 (by decide) whiteNodeG (by decide)
  exact ⟨c2, c5, c8, c10, by rw [w2]; decide, by rw [w3]; decide⟩

end TomoPy
